import Mathlib

/-!
Shallow embedding of the availability and conflict-checking engine of the
appointment MCP server (the `getAvailableTimeSlots`, `checkAppointmentConflict`
functions and their time helpers).

Times of day and timestamps are modelled in whole minutes: a timestamp is an
absolute minute count, its date is `t / 1440` and its time of day is `t % 1440`.
The TypeScript code compares zero-padded `HH:MM:SS` time strings; on such
strings lexicographic comparison agrees with comparison of the encoded minute
values (seconds are zero in every code path modelled here), so the encoding
preserves every comparison the code performs.  SQL result sets without an
`ORDER BY` are modelled as lists in snapshot order; `rows[0]` is the head of
that list.
-/

namespace Appointment

/-- Day of week of a day index, modelling `new Date(...).getDay()`.  The
concrete weekday anchor is irrelevant to all verified properties; what matters
is that both entry points apply the same function of the proposal's date. -/
def dayOfWeek (d : Nat) : Nat := d % 7

/-- Appointment status domain, from the schema constraint
`CHECK (status IN ('scheduled','confirmed','canceled','completed','no_show'))`.
Note the single-l spelling `canceled` in the schema. -/
inductive ApptStatus
  | scheduled
  | confirmed
  | canceled
  | completed
  | no_show
deriving DecidableEq, Repr

/-- The stored string of a status, with the schema's spellings. -/
def ApptStatus.str : ApptStatus → String
  | .scheduled => "scheduled"
  | .confirmed => "confirmed"
  | .canceled => "canceled"
  | .completed => "completed"
  | .no_show => "no_show"

/-- A row of `services` as read by both entry points. -/
structure Service where
  id : Nat
  is_active : Bool
  duration_minutes : Nat
  buffer_time_minutes : Nat
  max_bookings_per_slot : Nat
deriving DecidableEq, Repr

/-- A row of `staff`. -/
structure Staff where
  id : Nat
  is_active : Bool
deriving DecidableEq, Repr

/-- A row of `working_hours` (business hours), as the code reads it: the
listing filters on `is_open = true`, the conflict checker reads `is_closed`. -/
structure BizHours where
  day_of_week : Nat
  open_time : Nat
  close_time : Nat
  is_open : Bool
  is_closed : Bool
deriving DecidableEq, Repr

/-- A row of `staff_working_hours`. -/
structure StaffHours where
  staff_id : Nat
  day_of_week : Nat
  open_time : Nat
  close_time : Nat
  is_available : Bool
deriving DecidableEq, Repr

/-- A row of `staff_time_off`; `start_time`/`end_time` are nullable. -/
structure TimeOff where
  staff_id : Nat
  date : Nat
  is_all_day : Bool
  start_time : Option Nat
  end_time : Option Nat
deriving DecidableEq, Repr

/-- A row of `appointments`; `staff_id` is nullable, `start_time`/`end_time`
are absolute timestamps in minutes. -/
structure Appt where
  id : Nat
  service_id : Nat
  staff_id : Option Nat
  customer_id : Nat
  start_time : Nat
  end_time : Nat
  status : ApptStatus
deriving DecidableEq, Repr

/-- The database snapshot of one business, as both entry points query it. -/
structure DB where
  services : List Service
  staffList : List Staff
  staff_services : List (Nat × Nat)
  customers : List Nat
  working_hours : List BizHours
  staff_working_hours : List StaffHours
  staff_time_off : List TimeOff
  appointments : List Appt
deriving DecidableEq, Repr

/-- One finding pushed onto the `conflicts` array: its `type`, its severity
string (`"ERROR"` or `"WARNING"` in the source), and the id of the
`conflictingAppointment` when one is attached. -/
structure Conflict where
  kind : String
  severity : String
  relatedId : Option Nat
deriving DecidableEq, Repr

/-- The `summary` object built at the end of the non-short-circuit path. -/
structure Summary where
  totalConflicts : Nat
  errorCount : Nat
  warningCount : Nat
  canProceed : Bool
deriving DecidableEq, Repr

/-- The value returned by `checkAppointmentConflict`.  The early returns of
the source return an object literal without a `summary` field; that is
modelled as `summary = none`. -/
structure CheckResult where
  hasConflicts : Bool
  conflicts : List Conflict
  summary : Option Summary
deriving DecidableEq, Repr

/-- The three-clause overlap condition used verbatim in the SQL of the staff
double-booking, customer double-booking and capacity checks, and (with the
proposal's times of day as first pair) in the time-off overlap test:
`(aStart >= s AND aStart < e) OR (aEnd > s AND aEnd <= e) OR
 (aStart <= s AND aEnd >= e)`. -/
def sqlApptOverlap (aStart aEnd s e : Nat) : Bool :=
  (decide (aStart ≥ s) && decide (aStart < e)) ||
    (decide (aEnd > s) && decide (aEnd ≤ e)) ||
    (decide (aStart ≤ s) && decide (aEnd ≥ e))

/-- The status filter `status IN ('confirmed','pending','scheduled')` of
checks 8–10 of `checkAppointmentConflict`.  The schema never stores
`'pending'`, so on schema-valid rows this is exactly scheduled-or-confirmed. -/
def inCheckerStatuses (st : ApptStatus) : Bool :=
  st.str == "confirmed" || st.str == "pending" || st.str == "scheduled"

/-- The optional `AND a.id != $n` clause added when an `appointment_id` to
exclude is supplied (re-validating an update against all other bookings). -/
def exclOk (excl : Option Nat) (a : Appt) : Bool :=
  match excl with
  | some x => a.id != x
  | none => true

/-- Tail of check 1: `SERVICE_INACTIVE` when the found service is inactive. -/
def serviceActiveC (svc : Service) : List Conflict :=
  if svc.is_active then [] else [⟨"SERVICE_INACTIVE", "ERROR", none⟩]

/-- Tail of check 2: `STAFF_INACTIVE` when the found staff row is inactive. -/
def staffActiveC (st : Staff) : List Conflict :=
  if st.is_active then [] else [⟨"STAFF_INACTIVE", "ERROR", none⟩]

/-- Check 4: the staff member must have a `staff_services` row for the
service. -/
def staffServiceC (links : List (Nat × Nat)) (staff_id service_id : Nat) :
    List Conflict :=
  if (links.filter (fun p => p.1 == staff_id && p.2 == service_id)).isEmpty then
    [⟨"STAFF_SERVICE_MISMATCH", "ERROR", none⟩]
  else []

/-- Check 5: business hours for the proposal's weekday.  The query has no
`is_open` filter; the first row for the weekday is used. -/
def businessHoursC (rows : List BizHours) (dow sMin eMin : Nat) : List Conflict :=
  match rows.filter (fun w => w.day_of_week == dow) with
  | [] => [⟨"NO_BUSINESS_HOURS", "ERROR", none⟩]
  | w :: _ =>
    if w.is_closed then [⟨"BUSINESS_CLOSED", "ERROR", none⟩]
    else if sMin < w.open_time ∨ eMin > w.close_time then
      [⟨"OUTSIDE_BUSINESS_HOURS", "ERROR", none⟩]
    else []

/-- Check 6: staff working hours for the proposal's weekday. -/
def staffHoursC (rows : List StaffHours) (staff_id dow sMin eMin : Nat) :
    List Conflict :=
  match rows.filter (fun r => r.staff_id == staff_id && r.day_of_week == dow) with
  | [] => [⟨"STAFF_NO_WORKING_HOURS", "ERROR", none⟩]
  | r :: _ =>
    if !r.is_available then [⟨"STAFF_NOT_AVAILABLE", "ERROR", none⟩]
    else if sMin < r.open_time ∨ eMin > r.close_time then
      [⟨"OUTSIDE_STAFF_HOURS", "ERROR", none⟩]
    else []

/-- Check 7 of `checkAppointmentConflict`: staff time off.  Faithful to the
source, only the FIRST row returned for the staff/date
(`timeOffResult.rows[0]`) is inspected; later rows are ignored. -/
def timeOffC (rows : List TimeOff) (sMin eMin : Nat) : List Conflict :=
  match rows with
  | [] => []
  | t :: _ =>
    if t.is_all_day then [⟨"STAFF_TIME_OFF_ALL_DAY", "ERROR", none⟩]
    else
      match t.start_time, t.end_time with
      | some ts, some te =>
        if sqlApptOverlap sMin eMin ts te then
          [⟨"STAFF_TIME_OFF_OVERLAP", "ERROR", none⟩]
        else []
      | _, _ => []

/-- The result set of the staff double-booking query (check 8).  Its inner
`JOIN customers` / `JOIN services` only bind message fields on NOT NULL
foreign-key columns, so they drop no row of a schema-valid snapshot and are
not modelled. -/
def staffDblRows (appts : List Appt) (staff_id s e : Nat) (excl : Option Nat) :
    List Appt :=
  appts.filter (fun a =>
    a.staff_id == some staff_id && inCheckerStatuses a.status &&
      sqlApptOverlap a.start_time a.end_time s e && exclOk excl a)

/-- Check 8: at most one `STAFF_DOUBLE_BOOKING` finding, built from the first
row of the (unordered) result set. -/
def staffDblC (appts : List Appt) (staff_id s e : Nat) (excl : Option Nat) :
    List Conflict :=
  match staffDblRows appts staff_id s e excl with
  | [] => []
  | a :: _ => [⟨"STAFF_DOUBLE_BOOKING", "ERROR", some a.id⟩]

/-- The result set of the customer double-booking query (check 9).  Unlike
check 8, its inner `JOIN staff s ON a.staff_id = s.id` is on a NULLABLE
column: an appointment whose `staff_id` is NULL (or references no staff row)
is silently dropped from this result set, so the join is modelled as an
explicit conjunct over the staff table.  The further `JOIN services` binds
message fields on a NOT NULL foreign key and is not modelled. -/
def custDblRows (staffRows : List Staff) (appts : List Appt)
    (customer_id s e : Nat) (excl : Option Nat) : List Appt :=
  appts.filter (fun a =>
    a.customer_id == customer_id &&
      staffRows.any (fun st => a.staff_id == some st.id) &&
      inCheckerStatuses a.status &&
      sqlApptOverlap a.start_time a.end_time s e && exclOk excl a)

/-- Check 9: at most one `CUSTOMER_DOUBLE_BOOKING` finding. -/
def custDblC (staffRows : List Staff) (appts : List Appt)
    (customer_id s e : Nat) (excl : Option Nat) : List Conflict :=
  match custDblRows staffRows appts customer_id s e excl with
  | [] => []
  | a :: _ => [⟨"CUSTOMER_DOUBLE_BOOKING", "ERROR", some a.id⟩]

/-- The rows counted by the service-capacity query (check 10). -/
def capacityRows (appts : List Appt) (service_id date s e : Nat)
    (excl : Option Nat) : List Appt :=
  appts.filter (fun a =>
    a.service_id == service_id && a.start_time / 1440 == date &&
      inCheckerStatuses a.status && sqlApptOverlap a.start_time a.end_time s e &&
      exclOk excl a)

/-- Check 10: `SERVICE_CAPACITY_EXCEEDED` when the overlap count reaches
`max_bookings_per_slot`. -/
def capacityC (appts : List Appt) (service_id date s e : Nat) (excl : Option Nat)
    (maxB : Nat) : List Conflict :=
  if (capacityRows appts service_id date s e excl).length ≥ maxB then
    [⟨"SERVICE_CAPACITY_EXCEEDED", "ERROR", none⟩]
  else []

/-- Check 11, first half: `startDate >= endDate`. -/
def invalidRangeC (s e : Nat) : List Conflict :=
  if s ≥ e then [⟨"INVALID_TIME_RANGE", "ERROR", none⟩] else []

/-- Check 11, second half: `startDate < new Date()` — the only WARNING. -/
def pastDateC (now s : Nat) : List Conflict :=
  if s < now then [⟨"PAST_DATE", "WARNING", none⟩] else []

/-- The `summary` object of the final return statement. -/
def mkSummary (cs : List Conflict) : Summary :=
  ⟨cs.length,
    (cs.filter (fun c => c.severity == "ERROR")).length,
    (cs.filter (fun c => c.severity == "WARNING")).length,
    (cs.filter (fun c => c.severity == "ERROR")).length == 0⟩

/-- The function `checkAppointmentConflict(service_id, staff_id, customer_id, start_time,
end_time, appointment_id?)`, over a snapshot `db` and evaluation time `now`
(minutes).  The three entity-existence checks return early, carrying the
conflicts accumulated so far and no `summary`; every other check appends its
findings to the accumulating list. -/
def checkAppointmentConflict (db : DB) (now : Nat)
    (service_id staff_id customer_id start_time end_time : Nat)
    (appointment_id : Option Nat) : CheckResult :=
  let dow := dayOfWeek (start_time / 1440)
  let dateOnly := start_time / 1440
  let sMin := start_time % 1440
  let eMin := end_time % 1440
  match db.services.filter (fun s => s.id == service_id) with
  | [] => ⟨true, [⟨"SERVICE_NOT_FOUND", "ERROR", none⟩], none⟩
  | svc :: _ =>
    match db.staffList.filter (fun s => s.id == staff_id) with
    | [] => ⟨true, serviceActiveC svc ++ [⟨"STAFF_NOT_FOUND", "ERROR", none⟩], none⟩
    | st :: _ =>
      if (db.customers.filter (fun c => c == customer_id)).isEmpty then
        ⟨true,
          serviceActiveC svc ++ staffActiveC st ++
            [⟨"CUSTOMER_NOT_FOUND", "ERROR", none⟩],
          none⟩
      else
        let cs :=
          serviceActiveC svc ++ staffActiveC st ++
            staffServiceC db.staff_services staff_id service_id ++
            businessHoursC db.working_hours dow sMin eMin ++
            staffHoursC db.staff_working_hours staff_id dow sMin eMin ++
            timeOffC (db.staff_time_off.filter
              (fun t => t.staff_id == staff_id && t.date == dateOnly)) sMin eMin ++
            staffDblC db.appointments staff_id start_time end_time appointment_id ++
            custDblC db.staffList db.appointments customer_id start_time end_time
              appointment_id ++
            capacityC db.appointments service_id dateOnly start_time end_time
              appointment_id svc.max_bookings_per_slot ++
            invalidRangeC start_time end_time ++
            pastDateC now start_time
        ⟨!cs.isEmpty, cs, some (mkSummary cs)⟩

/-- One element of the array returned by `getAvailableTimeSlots`. -/
structure TimeSlot where
  start_time : Nat
  end_time : Nat
  available_staff : List Nat
  available_slots : Nat
deriving DecidableEq, Repr

/-- Whether a staff member is free at a candidate slot starting at `cur`, per
the listing's overlap test: times of day of the appointment only, with the
buffer added after the appointment end and after the candidate slot. -/
def listingStaffFree (appts : List Appt) (buffer dur cur stId : Nat) : Bool :=
  !(appts.any (fun a =>
    a.staff_id == some stId &&
      decide (cur < a.end_time % 1440 + buffer) &&
      decide (cur + dur + buffer > a.start_time % 1440)))

/-- The slot-generation loop of `getAvailableTimeSlots`: starting at the
business open time, while `cur + dur ≤ close`, in steps of 30 minutes, keep a
slot iff some staff member is free at it.  `fuel` bounds the iteration count;
each iteration advances `cur` by 30, so `close + 1` iterations always suffice
(`genSlotsAux_fuel_stable` below makes the truncation-freeness precise). -/
def genSlotsAux (avail : Nat → List Nat) (dur maxB close : Nat) :
    Nat → Nat → List TimeSlot
  | 0, _ => []
  | fuel + 1, cur =>
    if cur + dur ≤ close then
      (let staffIds := avail cur
        if staffIds.isEmpty then []
        else [⟨cur, cur + dur, staffIds, min staffIds.length maxB⟩]) ++
        genSlotsAux avail dur maxB close fuel (cur + 30)
    else []

/-- The active staff members that provide the service — the listing's
`staffResult` rows, reduced to their ids. -/
def capableStaffIds (db : DB) (service_id : Nat) : List Nat :=
  (db.staffList.filter (fun s =>
    s.is_active &&
      db.staff_services.any (fun p => p.1 == s.id && p.2 == service_id))).map
    Staff.id

/-- The listing's `existingAppointments`: same service, same date, and any
status whose string differs from `'cancelled'` (note the schema spells the
stored status `'canceled'`, which this filter does NOT exclude). -/
def listingAppts (db : DB) (service_id date : Nat) : List Appt :=
  db.appointments.filter (fun a =>
    a.service_id == service_id && a.start_time / 1440 == date &&
      a.status.str != "cancelled")

/-- The function `getAvailableTimeSlots(service_id, date)`.  A thrown error ("Service not
found") is modelled as `none`.  The buffer defaults via `|| 0` (identity on a
natural number) and the capacity via `|| 1` (which also maps 0 to 1). -/
def getAvailableTimeSlots (db : DB) (service_id date : Nat) :
    Option (List TimeSlot) :=
  match db.services.filter (fun s => s.id == service_id) with
  | [] => none
  | svc :: _ =>
    match db.working_hours.filter
        (fun w => w.day_of_week == dayOfWeek date && w.is_open) with
    | [] => some []
    | w :: _ =>
      if (capableStaffIds db service_id).isEmpty then some []
      else
        some (genSlotsAux
          (fun cur => (capableStaffIds db service_id).filter
            (listingStaffFree (listingAppts db service_id date)
              svc.buffer_time_minutes svc.duration_minutes cur))
          svc.duration_minutes
          (if svc.max_bookings_per_slot == 0 then 1
            else svc.max_bookings_per_slot)
          w.close_time (w.close_time + 1) w.open_time)

/-- The character of one decimal digit (only applied to `d < 10`). -/
def digitChar (d : Nat) : Char :=
  match d with
  | 0 => '0'
  | 1 => '1'
  | 2 => '2'
  | 3 => '3'
  | 4 => '4'
  | 5 => '5'
  | 6 => '6'
  | 7 => '7'
  | 8 => '8'
  | _ => '9'

/-- Decimal digit characters of a natural number, most significant first;
models `Number.prototype.toString()` on a natural number. -/
def natToChars (n : Nat) : List Char :=
  if n < 10 then [digitChar n]
  else natToChars (n / 10) ++ [digitChar (n % 10)]
decreasing_by exact Nat.div_lt_self (by omega) (by omega)

/-- Models `String.prototype.padStart(2, '0')` applied to the rendering of `n`. -/
def padTwo (n : Nat) : List Char :=
  if n < 10 then '0' :: natToChars n else natToChars n

/-- The value of a list of decimal digit characters. -/
def parseNat (cs : List Char) : Nat :=
  cs.foldl (fun acc c => acc * 10 + (c.toNat - 48)) 0

/-- JavaScript `Number(...)` restricted to the strings this code feeds it:
on a (possibly empty) all-digit string it yields the decimal value
(`Number("") = 0`); anything else is `NaN`, modelled as `none`. -/
def jsNumber (cs : List Char) : Option Nat :=
  if cs.all (fun c => decide (48 ≤ c.toNat) && decide (c.toNat ≤ 57)) then
    some (parseNat cs)
  else none

/-- Models `String.prototype.split(':')` on a string as a character list. -/
def splitOnColon (cs : List Char) : List (List Char) :=
  match cs with
  | [] => [[]]
  | c :: rest =>
    if c = ':' then [] :: splitOnColon rest
    else
      match splitOnColon rest with
      | [] => [[c]]
      | h :: t => (c :: h) :: t

/-- The helper `timeToMinutes(timeString)`: split on `':'`, convert the first two parts
with `Number`, return `hours * 60 + minutes`.  When the split yields fewer
than two parts the destructured `minutes` is `undefined` and the JS result is
`NaN` (`none` here); a non-numeric part likewise yields `NaN`. -/
def timeToMinutes (cs : List Char) : Option Nat :=
  match splitOnColon cs with
  | h :: m :: _ =>
    match jsNumber h, jsNumber m with
    | some a, some b => some (a * 60 + b)
    | _, _ => none
  | _ => none

/-- The helper `minutesToTime(minutes)`: zero-padded hours, `':'`, zero-padded minutes. -/
def minutesToTime (m : Nat) : List Char :=
  padTwo (m / 60) ++ ':' :: padTwo (m % 60)

/-- The conflict list accumulated by the non-short-circuit path of
`checkAppointmentConflict`, once the service row `svc` and staff row `st`
have been found and the customer exists. -/
def fullConflicts (db : DB) (now sid stid cid s e : Nat) (excl : Option Nat)
    (svc : Service) (st : Staff) : List Conflict :=
  serviceActiveC svc ++ staffActiveC st ++
    staffServiceC db.staff_services stid sid ++
    businessHoursC db.working_hours (dayOfWeek (s / 1440)) (s % 1440) (e % 1440) ++
    staffHoursC db.staff_working_hours stid (dayOfWeek (s / 1440)) (s % 1440)
      (e % 1440) ++
    timeOffC (db.staff_time_off.filter
      (fun t => t.staff_id == stid && t.date == s / 1440)) (s % 1440) (e % 1440) ++
    staffDblC db.appointments stid s e excl ++
    custDblC db.staffList db.appointments cid s e excl ++
    capacityC db.appointments sid (s / 1440) s e excl svc.max_bookings_per_slot ++
    invalidRangeC s e ++
    pastDateC now s

theorem serviceActiveC_mem {svc : Service} {c : Conflict}
    (h : c ∈ serviceActiveC svc) : c = ⟨"SERVICE_INACTIVE", "ERROR", none⟩ := by
  unfold serviceActiveC at h
  split at h <;> simp_all

theorem staffActiveC_mem {st : Staff} {c : Conflict}
    (h : c ∈ staffActiveC st) : c = ⟨"STAFF_INACTIVE", "ERROR", none⟩ := by
  unfold staffActiveC at h
  split at h <;> simp_all

theorem staffServiceC_mem {links : List (Nat × Nat)} {a b : Nat} {c : Conflict}
    (h : c ∈ staffServiceC links a b) :
    c = ⟨"STAFF_SERVICE_MISMATCH", "ERROR", none⟩ := by
  unfold staffServiceC at h
  split at h <;> simp_all

theorem businessHoursC_mem {rows : List BizHours} {dow sMin eMin : Nat}
    {c : Conflict} (h : c ∈ businessHoursC rows dow sMin eMin) :
    c.severity = "ERROR" ∧ c.relatedId = none ∧
      (c.kind = "NO_BUSINESS_HOURS" ∨ c.kind = "BUSINESS_CLOSED" ∨
        c.kind = "OUTSIDE_BUSINESS_HOURS") := by
  unfold businessHoursC at h
  split at h
  · simp_all
  · split at h
    · simp_all
    · split at h <;> simp_all

theorem staffHoursC_mem {rows : List StaffHours} {stid dow sMin eMin : Nat}
    {c : Conflict} (h : c ∈ staffHoursC rows stid dow sMin eMin) :
    c.severity = "ERROR" ∧ c.relatedId = none ∧
      (c.kind = "STAFF_NO_WORKING_HOURS" ∨ c.kind = "STAFF_NOT_AVAILABLE" ∨
        c.kind = "OUTSIDE_STAFF_HOURS") := by
  unfold staffHoursC at h
  split at h
  · simp_all
  · split at h
    · simp_all
    · split at h <;> simp_all

theorem timeOffC_mem {rows : List TimeOff} {sMin eMin : Nat} {c : Conflict}
    (h : c ∈ timeOffC rows sMin eMin) :
    c.severity = "ERROR" ∧ c.relatedId = none ∧
      (c.kind = "STAFF_TIME_OFF_ALL_DAY" ∨ c.kind = "STAFF_TIME_OFF_OVERLAP") := by
  unfold timeOffC at h
  split at h
  · simp_all
  · split at h
    · simp_all
    · split at h
      · split at h <;> simp_all
      · simp_all

theorem staffDblC_mem {appts : List Appt} {stid s e : Nat} {excl : Option Nat}
    {c : Conflict} (h : c ∈ staffDblC appts stid s e excl) :
    c.severity = "ERROR" ∧ c.kind = "STAFF_DOUBLE_BOOKING" := by
  unfold staffDblC at h
  split at h <;> simp_all

theorem custDblC_mem {staffRows : List Staff} {appts : List Appt}
    {cid s e : Nat} {excl : Option Nat}
    {c : Conflict} (h : c ∈ custDblC staffRows appts cid s e excl) :
    c.severity = "ERROR" ∧ c.kind = "CUSTOMER_DOUBLE_BOOKING" := by
  unfold custDblC at h
  split at h <;> simp_all

theorem capacityC_mem {appts : List Appt} {sid date s e : Nat}
    {excl : Option Nat} {maxB : Nat} {c : Conflict}
    (h : c ∈ capacityC appts sid date s e excl maxB) :
    c = ⟨"SERVICE_CAPACITY_EXCEEDED", "ERROR", none⟩ := by
  unfold capacityC at h
  split at h <;> simp_all

theorem invalidRangeC_mem {s e : Nat} {c : Conflict}
    (h : c ∈ invalidRangeC s e) : c = ⟨"INVALID_TIME_RANGE", "ERROR", none⟩ := by
  unfold invalidRangeC at h
  split at h <;> simp_all

theorem pastDateC_mem {now s : Nat} {c : Conflict}
    (h : c ∈ pastDateC now s) : c = ⟨"PAST_DATE", "WARNING", none⟩ := by
  unfold pastDateC at h
  split at h <;> simp_all

theorem check_eq_of_service_nil {db : DB} {now sid stid cid s e : Nat}
    {excl : Option Nat} (h : db.services.filter (fun x => x.id == sid) = []) :
    checkAppointmentConflict db now sid stid cid s e excl =
      ⟨true, [⟨"SERVICE_NOT_FOUND", "ERROR", none⟩], none⟩ := by
  unfold checkAppointmentConflict
  rw [h]

theorem check_eq_of_staff_nil {db : DB} {now sid stid cid s e : Nat}
    {excl : Option Nat} {svc : Service} {tl : List Service}
    (hs : db.services.filter (fun x => x.id == sid) = svc :: tl)
    (h : db.staffList.filter (fun x => x.id == stid) = []) :
    checkAppointmentConflict db now sid stid cid s e excl =
      ⟨true, serviceActiveC svc ++ [⟨"STAFF_NOT_FOUND", "ERROR", none⟩], none⟩ := by
  unfold checkAppointmentConflict
  rw [hs, h]

theorem check_eq_of_customer_nil {db : DB} {now sid stid cid s e : Nat}
    {excl : Option Nat} {svc : Service} {tl : List Service} {st : Staff}
    {tl2 : List Staff}
    (hs : db.services.filter (fun x => x.id == sid) = svc :: tl)
    (hst : db.staffList.filter (fun x => x.id == stid) = st :: tl2)
    (hc : (db.customers.filter (fun c => c == cid)).isEmpty = true) :
    checkAppointmentConflict db now sid stid cid s e excl =
      ⟨true,
        serviceActiveC svc ++ staffActiveC st ++
          [⟨"CUSTOMER_NOT_FOUND", "ERROR", none⟩],
        none⟩ := by
  unfold checkAppointmentConflict
  rw [hs, hst]
  simp only [hc, if_true]

theorem check_eq_full {db : DB} {now sid stid cid s e : Nat}
    {excl : Option Nat} {svc : Service} {tl : List Service} {st : Staff}
    {tl2 : List Staff}
    (hs : db.services.filter (fun x => x.id == sid) = svc :: tl)
    (hst : db.staffList.filter (fun x => x.id == stid) = st :: tl2)
    (hc : (db.customers.filter (fun c => c == cid)).isEmpty = false) :
    checkAppointmentConflict db now sid stid cid s e excl =
      ⟨!(fullConflicts db now sid stid cid s e excl svc st).isEmpty,
        fullConflicts db now sid stid cid s e excl svc st,
        some (mkSummary (fullConflicts db now sid stid cid s e excl svc st))⟩ := by
  unfold checkAppointmentConflict fullConflicts
  rw [hs, hst]
  simp only [hc, Bool.false_eq_true, if_false]

/-- Every finding of the non-short-circuit path has severity `"ERROR"` or
`"WARNING"`. -/
theorem fullConflicts_severity {db : DB} {now sid stid cid s e : Nat}
    {excl : Option Nat} {svc : Service} {st : Staff} {c : Conflict}
    (h : c ∈ fullConflicts db now sid stid cid s e excl svc st) :
    c.severity = "ERROR" ∨ c.severity = "WARNING" := by
  unfold fullConflicts at h
  simp only [List.mem_append] at h
  rcases h with ((((((((((h | h) | h) | h) | h) | h) | h) | h) | h) | h) | h)
  · exact Or.inl (congrArg Conflict.severity (serviceActiveC_mem h))
  · exact Or.inl (congrArg Conflict.severity (staffActiveC_mem h))
  · exact Or.inl (congrArg Conflict.severity (staffServiceC_mem h))
  · exact Or.inl (businessHoursC_mem h).1
  · exact Or.inl (staffHoursC_mem h).1
  · exact Or.inl (timeOffC_mem h).1
  · exact Or.inl (staffDblC_mem h).1
  · exact Or.inl (custDblC_mem h).1
  · exact Or.inl (congrArg Conflict.severity (capacityC_mem h))
  · exact Or.inl (congrArg Conflict.severity (invalidRangeC_mem h))
  · exact Or.inr (congrArg Conflict.severity (pastDateC_mem h))

/-- Splitting a conflict list by the two severities is a partition. -/
theorem length_filter_severity (cs : List Conflict)
    (h : ∀ c ∈ cs, c.severity = "ERROR" ∨ c.severity = "WARNING") :
    (cs.filter (fun c => c.severity == "ERROR")).length +
        (cs.filter (fun c => c.severity == "WARNING")).length = cs.length := by
  induction cs with
  | nil => simp
  | cons c t ih =>
    have ht := ih (fun x hx => h x (List.mem_cons_of_mem _ hx))
    rcases h c (List.mem_cons_self _ _) with hc | hc <;>
      simp [List.filter_cons, hc] <;> omega

/-- Check 4 fires exactly when no `staff_services` row links the
staff to the service. -/
theorem serviceActiveC_mem_kind_iff {svc : Service} {k : String} :
    k ∈ (serviceActiveC svc).map Conflict.kind ↔
      k = "SERVICE_INACTIVE" ∧ svc.is_active = false := by
  rcases h : svc.is_active <;> simp [serviceActiveC, h]

theorem staffActiveC_mem_kind_iff {st : Staff} {k : String} :
    k ∈ (staffActiveC st).map Conflict.kind ↔
      k = "STAFF_INACTIVE" ∧ st.is_active = false := by
  rcases h : st.is_active <;> simp [staffActiveC, h]

theorem staffServiceC_mem_kind_iff {links : List (Nat × Nat)} {a b : Nat}
    {k : String} :
    k ∈ (staffServiceC links a b).map Conflict.kind ↔
      k = "STAFF_SERVICE_MISMATCH" ∧
        (links.filter (fun p => p.1 == a && p.2 == b)).isEmpty = true := by
  rcases h : (links.filter (fun p => p.1 == a && p.2 == b)).isEmpty <;>
    simp [staffServiceC, h]

theorem businessHoursC_mem_kind_iff {rows : List BizHours} {dow sMin eMin : Nat}
    {k : String} :
    k ∈ (businessHoursC rows dow sMin eMin).map Conflict.kind ↔
      (k = "NO_BUSINESS_HOURS" ∧
          rows.filter (fun w => w.day_of_week == dow) = []) ∨
        ∃ w tlw, rows.filter (fun r => r.day_of_week == dow) = w :: tlw ∧
          ((k = "BUSINESS_CLOSED" ∧ w.is_closed = true) ∨
            (k = "OUTSIDE_BUSINESS_HOURS" ∧ w.is_closed = false ∧
              (sMin < w.open_time ∨ w.close_time < eMin))) := by
  rcases hf : rows.filter (fun w => w.day_of_week == dow) with _ | ⟨w, tlw⟩
  · simp [businessHoursC, hf]
  · rcases hc : w.is_closed
    · by_cases ho : sMin < w.open_time ∨ w.close_time < eMin <;>
        simp [businessHoursC, hf, hc, ho]
    · simp [businessHoursC, hf, hc]

theorem staffHoursC_mem_kind_iff {rows : List StaffHours}
    {stid dow sMin eMin : Nat} {k : String} :
    k ∈ (staffHoursC rows stid dow sMin eMin).map Conflict.kind ↔
      (k = "STAFF_NO_WORKING_HOURS" ∧
          rows.filter (fun r => r.staff_id == stid && r.day_of_week == dow) = []) ∨
        ∃ r tlr, rows.filter
            (fun r => r.staff_id == stid && r.day_of_week == dow) = r :: tlr ∧
          ((k = "STAFF_NOT_AVAILABLE" ∧ r.is_available = false) ∨
            (k = "OUTSIDE_STAFF_HOURS" ∧ r.is_available = true ∧
              (sMin < r.open_time ∨ r.close_time < eMin))) := by
  rcases hf : rows.filter (fun r => r.staff_id == stid && r.day_of_week == dow)
    with _ | ⟨r, tlr⟩
  · simp [staffHoursC, hf]
  · rcases hc : r.is_available
    · simp [staffHoursC, hf, hc]
    · by_cases ho : sMin < r.open_time ∨ r.close_time < eMin <;>
        simp [staffHoursC, hf, hc, ho]

/-- Both possible time-off findings depend only on the FIRST row of the
time-off result set. -/
theorem timeOffC_mem_kind_iff {rows : List TimeOff} {sMin eMin : Nat}
    {k : String} :
    k ∈ (timeOffC rows sMin eMin).map Conflict.kind ↔
      ∃ t rest, rows = t :: rest ∧
        ((k = "STAFF_TIME_OFF_ALL_DAY" ∧ t.is_all_day = true) ∨
          (k = "STAFF_TIME_OFF_OVERLAP" ∧ t.is_all_day = false ∧
            ∃ ts te, t.start_time = some ts ∧ t.end_time = some te ∧
              sqlApptOverlap sMin eMin ts te = true)) := by
  cases rows with
  | nil => simp [timeOffC]
  | cons t rest =>
    rcases hall : t.is_all_day
    · rcases hts : t.start_time with _ | ts
      · simp [timeOffC, hall, hts]
      · rcases hte : t.end_time with _ | te
        · simp [timeOffC, hall, hts, hte]
        · rcases hov : sqlApptOverlap sMin eMin ts te <;>
            simp [timeOffC, hall, hts, hte, hov]
    · simp [timeOffC, hall]

theorem staffDblC_mem_kind_iff {appts : List Appt} {stid s e : Nat}
    {excl : Option Nat} {k : String} :
    k ∈ (staffDblC appts stid s e excl).map Conflict.kind ↔
      k = "STAFF_DOUBLE_BOOKING" ∧ staffDblRows appts stid s e excl ≠ [] := by
  rcases h : staffDblRows appts stid s e excl with _ | ⟨a, rest⟩ <;>
    simp [staffDblC, h]

theorem custDblC_mem_kind_iff {staffRows : List Staff} {appts : List Appt}
    {cid s e : Nat} {excl : Option Nat} {k : String} :
    k ∈ (custDblC staffRows appts cid s e excl).map Conflict.kind ↔
      k = "CUSTOMER_DOUBLE_BOOKING" ∧
        custDblRows staffRows appts cid s e excl ≠ [] := by
  rcases h : custDblRows staffRows appts cid s e excl with _ | ⟨a, rest⟩ <;>
    simp [custDblC, h]

theorem capacityC_mem_kind_iff {appts : List Appt} {sid date s e : Nat}
    {excl : Option Nat} {maxB : Nat} {k : String} :
    k ∈ (capacityC appts sid date s e excl maxB).map Conflict.kind ↔
      k = "SERVICE_CAPACITY_EXCEEDED" ∧
        maxB ≤ (capacityRows appts sid date s e excl).length := by
  by_cases h : maxB ≤ (capacityRows appts sid date s e excl).length <;>
    simp [capacityC, h]

theorem invalidRangeC_mem_kind_iff {s e : Nat} {k : String} :
    k ∈ (invalidRangeC s e).map Conflict.kind ↔
      k = "INVALID_TIME_RANGE" ∧ e ≤ s := by
  by_cases h : e ≤ s <;> simp [invalidRangeC, h]

theorem pastDateC_mem_kind_iff {now s : Nat} {k : String} :
    k ∈ (pastDateC now s).map Conflict.kind ↔ k = "PAST_DATE" ∧ s < now := by
  by_cases h : s < now <;> simp [pastDateC, h]

/-- Master characterization: which finding kinds the accumulating phase
emits, as a function of the snapshot and proposal alone.  Each check
contributes independently of all the others. -/
theorem fullConflicts_kind_iff (db : DB) (now sid stid cid s e : Nat)
    (excl : Option Nat) (svc : Service) (st : Staff) (k : String) :
    k ∈ (fullConflicts db now sid stid cid s e excl svc st).map Conflict.kind ↔
      (k = "SERVICE_INACTIVE" ∧ svc.is_active = false) ∨
      (k = "STAFF_INACTIVE" ∧ st.is_active = false) ∨
      (k = "STAFF_SERVICE_MISMATCH" ∧
        (db.staff_services.filter
          (fun p => p.1 == stid && p.2 == sid)).isEmpty = true) ∨
      ((k = "NO_BUSINESS_HOURS" ∧
          db.working_hours.filter
            (fun w => w.day_of_week == dayOfWeek (s / 1440)) = []) ∨
        ∃ w tlw, db.working_hours.filter
            (fun r => r.day_of_week == dayOfWeek (s / 1440)) = w :: tlw ∧
          ((k = "BUSINESS_CLOSED" ∧ w.is_closed = true) ∨
            (k = "OUTSIDE_BUSINESS_HOURS" ∧ w.is_closed = false ∧
              (s % 1440 < w.open_time ∨ w.close_time < e % 1440)))) ∨
      ((k = "STAFF_NO_WORKING_HOURS" ∧
          db.staff_working_hours.filter
            (fun r => r.staff_id == stid &&
              r.day_of_week == dayOfWeek (s / 1440)) = []) ∨
        ∃ r tlr, db.staff_working_hours.filter
            (fun r => r.staff_id == stid &&
              r.day_of_week == dayOfWeek (s / 1440)) = r :: tlr ∧
          ((k = "STAFF_NOT_AVAILABLE" ∧ r.is_available = false) ∨
            (k = "OUTSIDE_STAFF_HOURS" ∧ r.is_available = true ∧
              (s % 1440 < r.open_time ∨ r.close_time < e % 1440)))) ∨
      (∃ t rest, db.staff_time_off.filter
          (fun t => t.staff_id == stid && t.date == s / 1440) = t :: rest ∧
        ((k = "STAFF_TIME_OFF_ALL_DAY" ∧ t.is_all_day = true) ∨
          (k = "STAFF_TIME_OFF_OVERLAP" ∧ t.is_all_day = false ∧
            ∃ ts te, t.start_time = some ts ∧ t.end_time = some te ∧
              sqlApptOverlap (s % 1440) (e % 1440) ts te = true))) ∨
      (k = "STAFF_DOUBLE_BOOKING" ∧
        staffDblRows db.appointments stid s e excl ≠ []) ∨
      (k = "CUSTOMER_DOUBLE_BOOKING" ∧
        custDblRows db.staffList db.appointments cid s e excl ≠ []) ∨
      (k = "SERVICE_CAPACITY_EXCEEDED" ∧ svc.max_bookings_per_slot ≤
        (capacityRows db.appointments sid (s / 1440) s e excl).length) ∨
      (k = "INVALID_TIME_RANGE" ∧ e ≤ s) ∨
      (k = "PAST_DATE" ∧ s < now) := by
  unfold fullConflicts
  simp only [List.map_append, List.mem_append]
  rw [serviceActiveC_mem_kind_iff, staffActiveC_mem_kind_iff,
    staffServiceC_mem_kind_iff, businessHoursC_mem_kind_iff,
    staffHoursC_mem_kind_iff, timeOffC_mem_kind_iff, staffDblC_mem_kind_iff,
    custDblC_mem_kind_iff, capacityC_mem_kind_iff, invalidRangeC_mem_kind_iff,
    pastDateC_mem_kind_iff]
  simp only [or_assoc]

/-- When the single business-hours row for the weekday is not closed and the
proposal lies inside its window, check 5 produces no finding. -/
theorem businessHoursC_eq_nil {rows : List BizHours} {dow sMin eMin : Nat}
    {w : BizHours} (hw : rows.filter (fun r => r.day_of_week == dow) = [w])
    (hclosed : w.is_closed = false) (hopen : w.open_time ≤ sMin)
    (hclose : eMin ≤ w.close_time) : businessHoursC rows dow sMin eMin = [] := by
  unfold businessHoursC
  rw [hw]
  simp [hclosed]
  omega

theorem genSlotsAux_zero {avail : Nat → List Nat} {dur maxB close cur : Nat} :
    genSlotsAux avail dur maxB close 0 cur = [] := rfl

theorem genSlotsAux_succ {avail : Nat → List Nat} {dur maxB close fuel cur : Nat} :
    genSlotsAux avail dur maxB close (fuel + 1) cur =
      if cur + dur ≤ close then
        (if (avail cur).isEmpty then []
          else [⟨cur, cur + dur, avail cur, min (avail cur).length maxB⟩]) ++
          genSlotsAux avail dur maxB close fuel (cur + 30)
      else [] := rfl

/-- Loop invariant of the slot-generation loop: every produced slot starts at
or after the loop counter, at a 30-minute multiple offset, lasts exactly
`dur` minutes, ends inside the window, and carries the non-empty available
staff computed at its start. -/
theorem genSlotsAux_mem {avail : Nat → List Nat} {dur maxB close : Nat} :
    ∀ fuel cur sl, sl ∈ genSlotsAux avail dur maxB close fuel cur →
      sl.end_time = sl.start_time + dur ∧ sl.start_time + dur ≤ close ∧
        cur ≤ sl.start_time ∧ (sl.start_time - cur) % 30 = 0 ∧
        sl.available_staff = avail sl.start_time ∧ sl.available_staff ≠ [] ∧
        sl.available_slots = min (avail sl.start_time).length maxB := by
  intro fuel
  induction fuel with
  | zero => intro cur sl h; simp [genSlotsAux] at h
  | succ f ih =>
    intro cur sl h
    by_cases hg : cur + dur ≤ close
    · simp only [genSlotsAux, hg, if_true, List.mem_append] at h
      rcases h with h | h
      · rcases he : (avail cur).isEmpty
        · rw [he] at h
          simp only [Bool.false_eq_true, if_false, List.mem_singleton] at h
          subst h
          refine ⟨rfl, hg, Nat.le_refl _, by simp, rfl, ?_, rfl⟩
          simpa [List.isEmpty_iff] using he
        · rw [he] at h
          simp at h
      · obtain ⟨h1, h2, h3, h4, h5, h6, h7⟩ := ih (cur + 30) sl h
        exact ⟨h1, h2, by omega, by omega, h5, h6, h7⟩
    · simp [genSlotsAux, hg] at h

/-- The generated slots are in strictly ascending start-time order. -/
theorem genSlotsAux_sorted {avail : Nat → List Nat} {dur maxB close : Nat} :
    ∀ fuel cur, (genSlotsAux avail dur maxB close fuel cur).Pairwise
      (fun a b => a.start_time < b.start_time) := by
  intro fuel
  induction fuel with
  | zero => intro cur; simp [genSlotsAux]
  | succ f ih =>
    intro cur
    by_cases hg : cur + dur ≤ close
    · simp only [genSlotsAux, hg, if_true]
      rw [List.pairwise_append]
      refine ⟨?_, ih (cur + 30), ?_⟩
      · rcases he : (avail cur).isEmpty <;> simp
      · intro a ha b hb
        have hb' := (genSlotsAux_mem f (cur + 30) b hb).2.2.1
        have ha' : a.start_time = cur := by
          rcases he : (avail cur).isEmpty
          · rw [he] at ha
            simp only [Bool.false_eq_true, if_false, List.mem_singleton] at ha
            subst ha; rfl
          · rw [he] at ha; simp at ha
        omega
    · simp [genSlotsAux, hg]

/-- If the service duration exceeds the remaining window, no slot at all is
generated. -/
theorem genSlotsAux_nil {avail : Nat → List Nat} {dur maxB close fuel cur : Nat}
    (h : close < cur + dur) : genSlotsAux avail dur maxB close fuel cur = [] := by
  cases fuel with
  | zero => rfl
  | succ f => simp [genSlotsAux, show ¬(cur + dur ≤ close) by omega]

/-- Fuel beyond the remaining window length is irrelevant: the bounded loop
equals its unbounded limit once `30 * fuel` covers the window, so the
`close + 1` fuel used by `getAvailableTimeSlots` never truncates. -/
theorem genSlotsAux_fuel_stable {avail : Nat → List Nat} {dur maxB close : Nat} :
    ∀ fuel cur, close < cur + 30 * fuel →
      genSlotsAux avail dur maxB close fuel cur =
        genSlotsAux avail dur maxB close (fuel + 1) cur := by
  intro fuel
  induction fuel with
  | zero =>
    intro cur h
    rw [genSlotsAux_zero, genSlotsAux_succ]
    simp [show ¬(cur + dur ≤ close) by omega]
  | succ f ih =>
    intro cur h
    rw [genSlotsAux_succ, genSlotsAux_succ]
    by_cases hg : cur + dur ≤ close
    · simp only [hg, if_true]
      rw [ih (cur + 30) (by omega)]
    · simp [hg]

theorem listing_eq_of_service_nil {db : DB} {sid date : Nat}
    (hs : db.services.filter (fun s => s.id == sid) = []) :
    getAvailableTimeSlots db sid date = none := by
  unfold getAvailableTimeSlots
  rw [hs]

theorem listing_eq_of_hours_nil {db : DB} {sid date : Nat} {svc : Service}
    {tl : List Service}
    (hs : db.services.filter (fun s => s.id == sid) = svc :: tl)
    (hw : db.working_hours.filter
      (fun w => w.day_of_week == dayOfWeek date && w.is_open) = []) :
    getAvailableTimeSlots db sid date = some [] := by
  unfold getAvailableTimeSlots
  rw [hs, hw]

theorem listing_eq_of_staff_nil {db : DB} {sid date : Nat} {svc : Service}
    {tl : List Service} {w : BizHours} {tlw : List BizHours}
    (hs : db.services.filter (fun s => s.id == sid) = svc :: tl)
    (hw : db.working_hours.filter
      (fun r => r.day_of_week == dayOfWeek date && r.is_open) = w :: tlw)
    (hst : (capableStaffIds db sid).isEmpty = true) :
    getAvailableTimeSlots db sid date = some [] := by
  unfold getAvailableTimeSlots
  rw [hs, hw]
  simp only [hst, if_true]

/-- The non-degenerate path of the listing: slots are generated over the
first open business-hours row by the 30-minute loop. -/
theorem listing_eq_full {db : DB} {sid date : Nat} {svc : Service}
    {tl : List Service} {w : BizHours} {tlw : List BizHours}
    (hs : db.services.filter (fun s => s.id == sid) = svc :: tl)
    (hw : db.working_hours.filter
      (fun r => r.day_of_week == dayOfWeek date && r.is_open) = w :: tlw)
    (hst : (capableStaffIds db sid).isEmpty = false) :
    getAvailableTimeSlots db sid date = some (genSlotsAux
      (fun cur => (capableStaffIds db sid).filter
        (listingStaffFree (listingAppts db sid date)
          svc.buffer_time_minutes svc.duration_minutes cur))
      svc.duration_minutes
      (if svc.max_bookings_per_slot == 0 then 1 else svc.max_bookings_per_slot)
      w.close_time (w.close_time + 1) w.open_time) := by
  unfold getAvailableTimeSlots
  rw [hs, hw]
  simp only [hst, Bool.false_eq_true, if_false]

/-- Characterization of a slot returned by `getAvailableTimeSlots`: the
service row exists, an open business-hours row for the weekday exists, and
the slot is a `duration_minutes`-long window inside it, 30-minute aligned. -/
theorem getAvailableTimeSlots_mem {db : DB} {sid date : Nat}
    {slots : List TimeSlot} {sl : TimeSlot}
    (h : getAvailableTimeSlots db sid date = some slots) (hm : sl ∈ slots) :
    ∃ svc tl w tlw,
      db.services.filter (fun s => s.id == sid) = svc :: tl ∧
        db.working_hours.filter
          (fun r => r.day_of_week == dayOfWeek date && r.is_open) = w :: tlw ∧
        w.open_time ≤ sl.start_time ∧
        sl.end_time = sl.start_time + svc.duration_minutes ∧
        sl.end_time ≤ w.close_time ∧
        (sl.start_time - w.open_time) % 30 = 0 := by
  rcases hs : db.services.filter (fun s => s.id == sid) with _ | ⟨svc, tl⟩
  · rw [listing_eq_of_service_nil hs] at h; exact absurd h (by simp)
  · rcases hw : db.working_hours.filter
        (fun r => r.day_of_week == dayOfWeek date && r.is_open) with _ | ⟨w, tlw⟩
    · rw [listing_eq_of_hours_nil hs hw] at h
      simp only [Option.some.injEq] at h
      subst h; exact absurd hm (by simp)
    · rcases hst : (capableStaffIds db sid).isEmpty
      · rw [listing_eq_full hs hw hst] at h
        simp only [Option.some.injEq] at h
        subst h
        obtain ⟨h1, h2, h3, h4, -, -, -⟩ :=
          genSlotsAux_mem (w.close_time + 1) w.open_time sl hm
        exact ⟨svc, tl, w, tlw, hs, hw, h3, h1, by omega, h4⟩
      · rw [listing_eq_of_staff_nil hs hw hst] at h
        simp only [Option.some.injEq] at h
        subst h; exact absurd hm (by simp)

theorem digitChar_toNat {d : Nat} (h : d < 10) : (digitChar d).toNat = 48 + d := by
  interval_cases d <;> rfl

theorem natToChars_digits :
    ∀ n c, c ∈ natToChars n → 48 ≤ c.toNat ∧ c.toNat ≤ 57 := by
  intro n
  induction n using Nat.strong_induction_on with
  | _ n ih =>
    intro c hc
    rw [natToChars] at hc
    split at hc
    · rename_i h
      simp only [List.mem_singleton] at hc
      subst hc
      rw [digitChar_toNat h]
      omega
    · rename_i h
      rcases List.mem_append.mp hc with hc | hc
      · exact ih (n / 10) (Nat.div_lt_self (by omega) (by omega)) c hc
      · simp only [List.mem_singleton] at hc
        subst hc
        rw [digitChar_toNat (Nat.mod_lt _ (by omega))]
        omega

theorem parseNat_append (cs : List Char) (c : Char) :
    parseNat (cs ++ [c]) = parseNat cs * 10 + (c.toNat - 48) := by
  unfold parseNat
  rw [List.foldl_append]
  rfl

theorem parseNat_natToChars : ∀ n, parseNat (natToChars n) = n := by
  intro n
  induction n using Nat.strong_induction_on with
  | _ n ih =>
    rw [natToChars]
    split
    · rename_i h
      show 0 * 10 + ((digitChar n).toNat - 48) = n
      rw [digitChar_toNat h]
      omega
    · rename_i h
      rw [parseNat_append, ih (n / 10) (Nat.div_lt_self (by omega) (by omega)),
        digitChar_toNat (Nat.mod_lt _ (by omega))]
      omega

theorem padTwo_digits {n : Nat} {c : Char} (hc : c ∈ padTwo n) :
    48 ≤ c.toNat ∧ c.toNat ≤ 57 := by
  unfold padTwo at hc
  split at hc
  · rcases List.mem_cons.mp hc with hc | hc
    · subst hc; exact ⟨by decide, by decide⟩
    · exact natToChars_digits _ _ hc
  · exact natToChars_digits _ _ hc

theorem parseNat_padTwo (n : Nat) : parseNat (padTwo n) = n := by
  unfold padTwo
  split
  · show parseNat ('0' :: natToChars n) = n
    have : parseNat ('0' :: natToChars n) = parseNat (natToChars n) := by
      unfold parseNat
      rfl
    rw [this, parseNat_natToChars]
  · exact parseNat_natToChars n

theorem jsNumber_padTwo (n : Nat) : jsNumber (padTwo n) = some n := by
  unfold jsNumber
  rw [if_pos, parseNat_padTwo]
  rw [List.all_eq_true]
  intro c hc
  obtain ⟨h1, h2⟩ := padTwo_digits hc
  simp [h1, h2]

theorem splitOnColon_no_colon :
    ∀ cs : List Char, (∀ c ∈ cs, c ≠ ':') → splitOnColon cs = [cs] := by
  intro cs
  induction cs with
  | nil => intro; rfl
  | cons c rest ih =>
    intro h
    unfold splitOnColon
    rw [if_neg (h c (List.mem_cons_self _ _)),
      ih (fun x hx => h x (List.mem_cons_of_mem _ hx))]

theorem splitOnColon_cons (c : Char) (rest : List Char) :
    splitOnColon (c :: rest) =
      if c = ':' then [] :: splitOnColon rest
      else
        match splitOnColon rest with
        | [] => [[c]]
        | h :: t => (c :: h) :: t := rfl

theorem splitOnColon_append (a b : List Char) (ha : ∀ c ∈ a, c ≠ ':') :
    splitOnColon (a ++ ':' :: b) = a :: splitOnColon b := by
  induction a with
  | nil =>
    show splitOnColon (':' :: b) = [] :: splitOnColon b
    rw [splitOnColon_cons, if_pos rfl]
  | cons c rest ih =>
    show splitOnColon (c :: (rest ++ ':' :: b)) = (c :: rest) :: splitOnColon b
    rw [splitOnColon_cons, if_neg (ha c (List.mem_cons_self _ _)),
      ih (fun x hx => ha x (List.mem_cons_of_mem _ hx))]

theorem padTwo_ne_colon {n : Nat} {c : Char} (hc : c ∈ padTwo n) : c ≠ ':' := by
  obtain ⟨h1, h2⟩ := padTwo_digits hc
  intro h
  subst h
  simp at h2

/-- Splitting `minutesToTime m` on the colon recovers the two padded parts. -/
theorem splitOnColon_minutesToTime (m : Nat) :
    splitOnColon (minutesToTime m) = [padTwo (m / 60), padTwo (m % 60)] := by
  unfold minutesToTime
  rw [splitOnColon_append _ _ (fun c hc => padTwo_ne_colon hc),
    splitOnColon_no_colon _ (fun c hc => padTwo_ne_colon hc)]

/-!
Concrete scenario snapshots used by counterexamples and witnesses.  The base
snapshot: one active 60-minute service (no buffer, capacity 1) provided by
one active staff member, one customer, business and staff hours 09:00–17:00
on weekday 0, no time off, no bookings; `date = 0` falls on weekday 0.
-/

def baseDB : DB :=
  { services := [⟨0, true, 60, 0, 1⟩]
    staffList := [⟨0, true⟩]
    staff_services := [(0, 0)]
    customers := [0]
    working_hours := [⟨0, 540, 1020, true, false⟩]
    staff_working_hours := [⟨0, 0, 540, 1020, true⟩]
    staff_time_off := []
    appointments := [] }

/-- Base snapshot with a 09:00–11:00 business day and NO staff working-hours
row: the listing ignores staff hours, the checker does not. -/
def exC1db : DB := { baseDB with
  working_hours := [⟨0, 540, 660, true, false⟩]
  staff_working_hours := [] }

/-- Base snapshot with a 09:00–11:00 day and staff hours to match. -/
def exC1wdb : DB := { baseDB with
  working_hours := [⟨0, 540, 660, true, false⟩]
  staff_working_hours := [⟨0, 0, 540, 660, true⟩] }

/-- Snapshot `exC1wdb` plus one CANCELED 09:00–10:00 booking of the service. -/
def exC2db : DB := { exC1wdb with
  appointments := [⟨1, 0, some 0, 1, 540, 600, .canceled⟩] }

/-- An inactive service and no staff at all. -/
def exC4db : DB :=
  { services := [⟨0, false, 60, 0, 1⟩], staffList := [], staff_services := [],
    customers := [], working_hours := [], staff_working_hours := [],
    staff_time_off := [], appointments := [] }

/-- Base snapshot with two partial time-off rows on date 0; only the SECOND
(14:00–15:00) overlaps the proposal used in the counterexample. -/
def exC6db : DB := { baseDB with
  staff_time_off := [⟨0, 0, false, some 100, some 200⟩,
    ⟨0, 0, false, some 840, some 900⟩] }

/-- Base snapshot with a single overlapping partial time-off row. -/
def exC6wdb : DB := { baseDB with
  staff_time_off := [⟨0, 0, false, some 840, some 900⟩] }

/-- Base snapshot with two overlapping confirmed bookings of the same staff
and customer; the LATER-starting one (id 5) comes first in snapshot order. -/
def exC7db : DB := { baseDB with
  appointments := [⟨5, 0, some 0, 0, 870, 930, .confirmed⟩,
    ⟨4, 0, some 0, 0, 850, 910, .confirmed⟩] }

/-- A completely empty snapshot. -/
def exC9db : DB :=
  { services := [], staffList := [], staff_services := [], customers := [],
    working_hours := [], staff_working_hours := [], staff_time_off := [],
    appointments := [] }

/-- C5: the three-clause overlap condition used by the staff and customer
double-booking checks is, on well-formed windows, equivalent to half-open
interval overlap (`a.start < b.end && b.start < a.end`), and windows that
merely touch at an endpoint never count as overlapping. -/
theorem C5_overlap_equiv_half_open (aStart aEnd s e : Nat)
    (hwf1 : aStart < aEnd) (hwf2 : s < e) :
    (sqlApptOverlap aStart aEnd s e = true ↔ s < aEnd ∧ aStart < e) ∧
    (aEnd = s → sqlApptOverlap aStart aEnd s e = false) ∧
    (aStart = e → sqlApptOverlap aStart aEnd s e = false) := by
  have hiff : sqlApptOverlap aStart aEnd s e = true ↔ s < aEnd ∧ aStart < e := by
    unfold sqlApptOverlap
    simp only [Bool.or_eq_true, Bool.and_eq_true, decide_eq_true_eq]
    omega
  refine ⟨hiff, fun h => ?_, fun h => ?_⟩
  · rw [Bool.eq_false_iff]
    intro hc
    obtain ⟨h1, h2⟩ := hiff.mp hc
    omega
  · rw [Bool.eq_false_iff]
    intro hc
    obtain ⟨h1, h2⟩ := hiff.mp hc
    omega

/-- C5 witness: instantiation at the two windows 10:00–11:00 and
10:30–11:30, and at touching windows. -/
theorem C5_overlap_equiv_half_open_witness :
    (sqlApptOverlap 600 660 630 690 = true ↔ 630 < 660 ∧ 600 < 690) ∧
    (660 = 630 → sqlApptOverlap 600 660 630 690 = false) ∧
    (600 = 690 → sqlApptOverlap 600 660 630 690 = false) :=
  C5_overlap_equiv_half_open 600 660 630 690 (by decide) (by decide)

/-- C8: the slot-generation loop of `getAvailableTimeSlots` (as invoked: fuel
`close + 1`, starting at the open time) produces a finite list of slots, each
exactly `dur` minutes long, ending no later than the close time, starting at
a multiple of 30 minutes past the open time, in strictly ascending start
order; if `dur` exceeds the window length the list is empty. -/
theorem C8_slot_generation_shape (avail : Nat → List Nat)
    (dur maxB openT close : Nat) :
    (∀ sl ∈ genSlotsAux avail dur maxB close (close + 1) openT,
      sl.end_time = sl.start_time + dur ∧ sl.end_time ≤ close ∧
        openT ≤ sl.start_time ∧ (sl.start_time - openT) % 30 = 0) ∧
    (genSlotsAux avail dur maxB close (close + 1) openT).Pairwise
      (fun a b => a.start_time < b.start_time) ∧
    (close < openT + dur →
      genSlotsAux avail dur maxB close (close + 1) openT = []) := by
  refine ⟨fun sl hm => ?_, genSlotsAux_sorted _ _, fun h => genSlotsAux_nil h⟩
  obtain ⟨h1, h2, h3, h4, -, -, -⟩ := genSlotsAux_mem _ _ sl hm
  exact ⟨h1, by omega, h3, h4⟩

/-- C8 witness: with a 09:00–10:00 window and a 120-minute duration the loop
yields no slot. -/
theorem C8_slot_generation_shape_witness :
    genSlotsAux (fun _ => [0]) 120 1 600 601 540 = [] :=
  (C8_slot_generation_shape (fun _ => [0]) 120 1 540 600).2.2 (by decide)

/-- C10: `timeToMinutes` is a left inverse of `minutesToTime` on every
natural number, and on valid zero-padded `HH:MM` strings (here written as
`padTwo hh ++ ':' :: padTwo mm` with `hh < 24`, `mm < 60`) the two functions
are mutually inverse. -/
theorem C10_time_conversion_round_trip :
    (∀ m : Nat, timeToMinutes (minutesToTime m) = some m) ∧
    (∀ hh mm : Nat, hh < 24 → mm < 60 →
      minutesToTime (hh * 60 + mm) = padTwo hh ++ ':' :: padTwo mm ∧
        timeToMinutes (padTwo hh ++ ':' :: padTwo mm) = some (hh * 60 + mm)) := by
  have key : ∀ m : Nat, timeToMinutes (minutesToTime m) = some m := by
    intro m
    unfold timeToMinutes
    rw [splitOnColon_minutesToTime]
    show (match jsNumber (padTwo (m / 60)), jsNumber (padTwo (m % 60)) with
      | some a, some b => some (a * 60 + b)
      | _, _ => none) = some m
    rw [jsNumber_padTwo, jsNumber_padTwo]
    show some (m / 60 * 60 + m % 60) = some m
    congr 1
    omega
  refine ⟨key, fun hh mm hhh hmm => ?_⟩
  have heq : minutesToTime (hh * 60 + mm) = padTwo hh ++ ':' :: padTwo mm := by
    unfold minutesToTime
    rw [show (hh * 60 + mm) / 60 = hh by omega,
      show (hh * 60 + mm) % 60 = mm by omega]
  exact ⟨heq, by rw [← heq]; exact key _⟩

/-- C10 witness: round trips at 12:34. -/
theorem C10_time_conversion_round_trip_witness :
    timeToMinutes (minutesToTime 754) = some 754 ∧
    minutesToTime (12 * 60 + 34) = padTwo 12 ++ ':' :: padTwo 34 :=
  ⟨C10_time_conversion_round_trip.1 754,
    (C10_time_conversion_round_trip.2 12 34 (by decide) (by decide)).1⟩

/-- C1 counterexample: with no staff working-hours row, the listing offers
slot 09:00–10:00 with staff 0, yet proposing exactly that slot with staff 0
to the conflict checker yields an ERROR (`STAFF_NO_WORKING_HOURS`) and
`canProceed = false` — refuting the listing/checking agreement. -/
theorem C1_agreement_counterexample :
    getAvailableTimeSlots exC1db 0 0 =
      some [⟨540, 600, [0], 1⟩, ⟨570, 630, [0], 1⟩, ⟨600, 660, [0], 1⟩] ∧
    (checkAppointmentConflict exC1db 0 0 0 0 540 600 none).conflicts =
      [⟨"STAFF_NO_WORKING_HOURS", "ERROR", none⟩] ∧
    (checkAppointmentConflict exC1db 0 0 0 0 540 600 none).summary =
      some ⟨1, 1, 0, false⟩ := by
  refine ⟨by decide, by decide, by decide⟩

/-- C2 counterexample: a booking whose stored status is `canceled` (the
schema spelling) removes slots 09:00 and 09:30 from the availability listing
(its filter tests `!= 'cancelled'`), even though the conflict checker finds
no conflict at all for the same window — so a canceled booking does consume
availability in the listing. -/
theorem C2_status_counterexample :
    getAvailableTimeSlots exC2db 0 0 = some [⟨600, 660, [0], 1⟩] ∧
    (checkAppointmentConflict exC2db 0 0 0 0 540 600 none).summary =
      some ⟨0, 0, 0, true⟩ := by
  refine ⟨by decide, by decide⟩

/-- C4 counterexample: when the service exists but is inactive and the staff
member is missing, the staff-not-found short-circuit returns TWO findings
(`SERVICE_INACTIVE` then `STAFF_NOT_FOUND`), not "only that single ERROR
finding". -/
theorem C4_short_circuit_counterexample :
    checkAppointmentConflict exC4db 0 0 0 0 840 900 none =
      ⟨true, [⟨"SERVICE_INACTIVE", "ERROR", none⟩,
        ⟨"STAFF_NOT_FOUND", "ERROR", none⟩], none⟩ := by
  decide

/-- C6 counterexample: the staff has two partial time-off rows on the date
and only the second (14:00–15:00) overlaps the 14:00–15:00 proposal; the
checker inspects only the first row and reports NO time-off conflict,
returning `canProceed = true`. -/
theorem C6_second_row_counterexample :
    checkAppointmentConflict exC6db 0 0 0 0 840 900 none =
      ⟨false, [], some ⟨0, 0, 0, true⟩⟩ := by
  decide

/-- C7 counterexample: with two overlapping confirmed bookings (the
later-starting one first in the snapshot), the findings come in the order
staff-double-booking, customer-double-booking, capacity — the capacity
finding LAST, not before the double-booking findings — and each
double-booking check reports a single finding that references booking id 5,
the later-starting booking, not all overlapping bookings in ascending
start-time order. -/
theorem C7_order_counterexample :
    (checkAppointmentConflict exC7db 0 0 0 0 840 900 none).conflicts =
      [⟨"STAFF_DOUBLE_BOOKING", "ERROR", some 5⟩,
        ⟨"CUSTOMER_DOUBLE_BOOKING", "ERROR", some 5⟩,
        ⟨"SERVICE_CAPACITY_EXCEEDED", "ERROR", none⟩] := by
  decide

/-- C9 counterexample: the service-not-found short circuit returns a result
with NO `summary` object at all, so the claimed summary equations do not
hold of every returned result. -/
theorem C9_missing_summary_counterexample :
    checkAppointmentConflict exC9db 0 0 0 0 840 900 none =
      ⟨true, [⟨"SERVICE_NOT_FOUND", "ERROR", none⟩], none⟩ := by
  decide

/-- C3: whenever `checkAppointmentConflict` returns a result carrying a
summary, `canProceed` is true exactly when no finding in the conflicts list
has ERROR severity; WARNING findings never block. -/
theorem C3_canProceed_iff_no_error (db : DB) (now sid stid cid s e : Nat)
    (excl : Option Nat) (smry : Summary)
    (h : (checkAppointmentConflict db now sid stid cid s e excl).summary =
      some smry) :
    smry.canProceed = true ↔
      ∀ c ∈ (checkAppointmentConflict db now sid stid cid s e excl).conflicts,
        c.severity ≠ "ERROR" := by
  rcases hs : db.services.filter (fun x => x.id == sid) with _ | ⟨svc, tl⟩
  · rw [check_eq_of_service_nil hs] at h
    exact absurd h (by simp)
  · rcases hst : db.staffList.filter (fun x => x.id == stid) with _ | ⟨st, tl2⟩
    · rw [check_eq_of_staff_nil hs hst] at h
      exact absurd h (by simp)
    · rcases hc : (db.customers.filter (fun c => c == cid)).isEmpty
      · simp only [check_eq_full hs hst hc] at h ⊢
        simp only [Option.some.injEq] at h
        subst h
        simp [mkSummary, List.length_eq_zero, List.filter_eq_nil_iff]
      · rw [check_eq_of_customer_nil hs hst hc] at h
        exact absurd h (by simp)

/-- C3 witness: a proposal in the past (relative to `now = 100000`) whose
only finding is the `PAST_DATE` WARNING still has `canProceed = true`. -/
theorem C3_canProceed_iff_no_error_witness :
    ((⟨1, 0, 1, true⟩ : Summary).canProceed = true ↔
      ∀ c ∈ (checkAppointmentConflict baseDB 100000 0 0 0 840 900 none).conflicts,
        c.severity ≠ "ERROR") ∧
    (checkAppointmentConflict baseDB 100000 0 0 0 840 900 none).conflicts =
      [⟨"PAST_DATE", "WARNING", none⟩] :=
  ⟨C3_canProceed_iff_no_error baseDB 100000 0 0 0 840 900 none ⟨1, 0, 1, true⟩
    (by decide), by decide⟩

/-- C9 (amended): results of the full path satisfy the summary equations
(`totalConflicts` = length of the conflicts list = `errorCount` +
`warningCount`, and `hasConflicts` iff the list is non-empty); the three
short-circuit results carry NO summary but do have `hasConflicts = true`
with a non-empty list; and every finding's severity is ERROR or WARNING. -/
theorem C9_summary_consistency (db : DB) (now sid stid cid s e : Nat)
    (excl : Option Nat) :
    (∀ smry, (checkAppointmentConflict db now sid stid cid s e excl).summary =
        some smry →
      smry.totalConflicts =
          (checkAppointmentConflict db now sid stid cid s e excl).conflicts.length ∧
        smry.totalConflicts = smry.errorCount + smry.warningCount ∧
        ((checkAppointmentConflict db now sid stid cid s e excl).hasConflicts =
            true ↔
          (checkAppointmentConflict db now sid stid cid s e excl).conflicts ≠ [])) ∧
    ((checkAppointmentConflict db now sid stid cid s e excl).summary = none →
      (checkAppointmentConflict db now sid stid cid s e excl).hasConflicts =
          true ∧
        (checkAppointmentConflict db now sid stid cid s e excl).conflicts ≠ []) ∧
    (∀ c ∈ (checkAppointmentConflict db now sid stid cid s e excl).conflicts,
      c.severity = "ERROR" ∨ c.severity = "WARNING") := by
  rcases hs : db.services.filter (fun x => x.id == sid) with _ | ⟨svc, tl⟩
  · simp only [check_eq_of_service_nil hs]
    refine ⟨fun smry h => absurd h (by simp), fun _ => ⟨by trivial, by simp⟩, ?_⟩
    intro c hc
    simp only [List.mem_singleton] at hc
    subst hc
    exact Or.inl rfl
  · rcases hst : db.staffList.filter (fun x => x.id == stid) with _ | ⟨st, tl2⟩
    · simp only [check_eq_of_staff_nil hs hst]
      refine ⟨fun smry h => absurd h (by simp), fun _ => ⟨by trivial, by simp⟩, ?_⟩
      intro c hc
      rcases List.mem_append.mp hc with hc | hc
      · exact Or.inl (congrArg Conflict.severity (serviceActiveC_mem hc))
      · simp only [List.mem_singleton] at hc
        subst hc
        exact Or.inl rfl
    · rcases hc : (db.customers.filter (fun c => c == cid)).isEmpty
      · simp only [check_eq_full hs hst hc]
        refine ⟨fun smry h => ?_, fun h => absurd h (by simp), ?_⟩
        · simp only [Option.some.injEq] at h
          subst h
          refine ⟨rfl, ?_, ?_⟩
          · exact (length_filter_severity _
              (fun c hcm => fullConflicts_severity hcm)).symm
          · rcases he : (fullConflicts db now sid stid cid s e excl svc st).isEmpty
            · simp [List.isEmpty_iff] at he
              simp [he]
            · simp [List.isEmpty_iff] at he
              simp [he]
        · exact fun c hcm => fullConflicts_severity hcm
      · simp only [check_eq_of_customer_nil hs hst hc]
        refine ⟨fun smry h => absurd h (by simp), fun _ => ⟨by trivial, by simp⟩, ?_⟩
        intro c hcm
        rcases List.mem_append.mp hcm with hcm | hcm
        · rcases List.mem_append.mp hcm with hcm | hcm
          · exact Or.inl (congrArg Conflict.severity (serviceActiveC_mem hcm))
          · exact Or.inl (congrArg Conflict.severity (staffActiveC_mem hcm))
        · simp only [List.mem_singleton] at hcm
          subst hcm
          exact Or.inl rfl

/-- C9 witness: instantiation at the base snapshot and a clean 14:00–15:00
proposal, discharging the summary hypothesis concretely. -/
theorem C9_summary_consistency_witness :
    (⟨0, 0, 0, true⟩ : Summary).totalConflicts =
        (checkAppointmentConflict baseDB 0 0 0 0 840 900 none).conflicts.length ∧
      (⟨0, 0, 0, true⟩ : Summary).totalConflicts =
        (⟨0, 0, 0, true⟩ : Summary).errorCount +
          (⟨0, 0, 0, true⟩ : Summary).warningCount ∧
      ((checkAppointmentConflict baseDB 0 0 0 0 840 900 none).hasConflicts =
          true ↔
        (checkAppointmentConflict baseDB 0 0 0 0 840 900 none).conflicts ≠ []) :=
  (C9_summary_consistency baseDB 0 0 0 0 840 900 none).1 ⟨0, 0, 0, true⟩
    (by decide)

/-- The snapshot restricted to bookings whose status is `scheduled` or
`confirmed` — the statuses the spec calls "active".  (These are exactly the
schema-valid statuses matching the checker's
`IN ('confirmed','pending','scheduled')` filter, since `'pending'` is never
stored.) -/
def keepActive (db : DB) : DB :=
  { db with appointments := db.appointments.filter (fun a =>
      a.status == ApptStatus.scheduled || a.status == ApptStatus.confirmed) }

theorem staffDblRows_filter_active (appts : List Appt) (stid s e : Nat)
    (excl : Option Nat) :
    staffDblRows (appts.filter (fun a => a.status == ApptStatus.scheduled ||
        a.status == ApptStatus.confirmed)) stid s e excl =
      staffDblRows appts stid s e excl := by
  unfold staffDblRows
  rw [List.filter_filter]
  apply List.filter_congr
  intro a _
  cases hstat : a.status <;>
    simp [hstat, inCheckerStatuses, ApptStatus.str]

theorem custDblRows_filter_active (staffRows : List Staff) (appts : List Appt)
    (cid s e : Nat) (excl : Option Nat) :
    custDblRows staffRows
        (appts.filter (fun a => a.status == ApptStatus.scheduled ||
          a.status == ApptStatus.confirmed)) cid s e excl =
      custDblRows staffRows appts cid s e excl := by
  unfold custDblRows
  rw [List.filter_filter]
  apply List.filter_congr
  intro a _
  cases hstat : a.status <;>
    simp [hstat, inCheckerStatuses, ApptStatus.str]

theorem capacityRows_filter_active (appts : List Appt) (sid date s e : Nat)
    (excl : Option Nat) :
    capacityRows (appts.filter (fun a => a.status == ApptStatus.scheduled ||
        a.status == ApptStatus.confirmed)) sid date s e excl =
      capacityRows appts sid date s e excl := by
  unfold capacityRows
  rw [List.filter_filter]
  apply List.filter_congr
  intro a _
  cases hstat : a.status <;>
    simp [hstat, inCheckerStatuses, ApptStatus.str]

theorem staffDblC_filter_active (appts : List Appt) (stid s e : Nat)
    (excl : Option Nat) :
    staffDblC (appts.filter (fun a => a.status == ApptStatus.scheduled ||
        a.status == ApptStatus.confirmed)) stid s e excl =
      staffDblC appts stid s e excl := by
  unfold staffDblC
  rw [staffDblRows_filter_active]

theorem custDblC_filter_active (staffRows : List Staff) (appts : List Appt)
    (cid s e : Nat) (excl : Option Nat) :
    custDblC staffRows
        (appts.filter (fun a => a.status == ApptStatus.scheduled ||
          a.status == ApptStatus.confirmed)) cid s e excl =
      custDblC staffRows appts cid s e excl := by
  unfold custDblC
  rw [custDblRows_filter_active]

theorem capacityC_filter_active (appts : List Appt) (sid date s e : Nat)
    (excl : Option Nat) (maxB : Nat) :
    capacityC (appts.filter (fun a => a.status == ApptStatus.scheduled ||
        a.status == ApptStatus.confirmed)) sid date s e excl maxB =
      capacityC appts sid date s e excl maxB := by
  unfold capacityC
  rw [capacityRows_filter_active]

/-- C2 (amended): the conflict checker is invariant under discarding every
booking whose status is not `scheduled`/`confirmed` — so `completed`,
`canceled` and `no_show` bookings never contribute a conflict or consume
capacity in checks 8–10.  (The availability listing does NOT share this
property: see the counterexample, where a `canceled` booking consumes
availability because the listing filters on the misspelt `'cancelled'`.) -/
theorem C2_checker_ignores_finished_bookings (db : DB)
    (now sid stid cid s e : Nat) (excl : Option Nat) :
    checkAppointmentConflict (keepActive db) now sid stid cid s e excl =
      checkAppointmentConflict db now sid stid cid s e excl := by
  rcases hs : db.services.filter (fun x => x.id == sid) with _ | ⟨svc, tl⟩
  · have hs' : (keepActive db).services.filter (fun x => x.id == sid) = [] := hs
    rw [check_eq_of_service_nil hs', check_eq_of_service_nil hs]
  · have hs' : (keepActive db).services.filter (fun x => x.id == sid) =
      svc :: tl := hs
    rcases hst : db.staffList.filter (fun x => x.id == stid) with _ | ⟨st, tl2⟩
    · have hst' : (keepActive db).staffList.filter (fun x => x.id == stid) =
        [] := hst
      rw [check_eq_of_staff_nil hs' hst', check_eq_of_staff_nil hs hst]
    · have hst' : (keepActive db).staffList.filter (fun x => x.id == stid) =
        st :: tl2 := hst
      rcases hc : (db.customers.filter (fun c => c == cid)).isEmpty
      · have hc' : ((keepActive db).customers.filter
          (fun c => c == cid)).isEmpty = false := hc
        rw [check_eq_full hs' hst' hc', check_eq_full hs hst hc]
        have hfc : fullConflicts (keepActive db) now sid stid cid s e excl
            svc st = fullConflicts db now sid stid cid s e excl svc st := by
          unfold fullConflicts keepActive
          simp only []
          rw [staffDblC_filter_active, custDblC_filter_active,
            capacityC_filter_active]
        rw [hfc]
      · have hc' : ((keepActive db).customers.filter
          (fun c => c == cid)).isEmpty = true := hc
        rw [check_eq_of_customer_nil hs' hst' hc',
          check_eq_of_customer_nil hs hst hc]

/-- C4 (amended): the checker short-circuits exactly on the three
entity-existence checks, but the staff and customer short circuits return the
findings accumulated SO FAR plus the existence ERROR (service-not-found alone
is a single finding); on the full path every policy check contributes its
finding independently of all other checks, characterized here for the
eligibility, double-booking, capacity, invalid-range and past-date checks.
The customer double-booking result set is the one the query's inner staff
join produces: an overlapping active booking with NULL `staff_id` does not
trigger the finding. -/
theorem C4_short_circuit_and_accumulation (db : DB) (now sid stid cid s e : Nat)
    (excl : Option Nat) :
    (db.services.filter (fun x => x.id == sid) = [] →
      checkAppointmentConflict db now sid stid cid s e excl =
        ⟨true, [⟨"SERVICE_NOT_FOUND", "ERROR", none⟩], none⟩) ∧
    (∀ svc tl, db.services.filter (fun x => x.id == sid) = svc :: tl →
      db.staffList.filter (fun x => x.id == stid) = [] →
      checkAppointmentConflict db now sid stid cid s e excl =
        ⟨true, serviceActiveC svc ++ [⟨"STAFF_NOT_FOUND", "ERROR", none⟩],
          none⟩) ∧
    (∀ svc tl st tl2, db.services.filter (fun x => x.id == sid) = svc :: tl →
      db.staffList.filter (fun x => x.id == stid) = st :: tl2 →
      (db.customers.filter (fun c => c == cid)).isEmpty = true →
      checkAppointmentConflict db now sid stid cid s e excl =
        ⟨true, serviceActiveC svc ++ staffActiveC st ++
          [⟨"CUSTOMER_NOT_FOUND", "ERROR", none⟩], none⟩) ∧
    (∀ svc tl st tl2, db.services.filter (fun x => x.id == sid) = svc :: tl →
      db.staffList.filter (fun x => x.id == stid) = st :: tl2 →
      (db.customers.filter (fun c => c == cid)).isEmpty = false →
      (("STAFF_SERVICE_MISMATCH" ∈
          (checkAppointmentConflict db now sid stid cid s e excl).conflicts.map
            Conflict.kind ↔
        (db.staff_services.filter
          (fun p => p.1 == stid && p.2 == sid)).isEmpty = true) ∧
      ("STAFF_DOUBLE_BOOKING" ∈
          (checkAppointmentConflict db now sid stid cid s e excl).conflicts.map
            Conflict.kind ↔
        staffDblRows db.appointments stid s e excl ≠ []) ∧
      ("CUSTOMER_DOUBLE_BOOKING" ∈
          (checkAppointmentConflict db now sid stid cid s e excl).conflicts.map
            Conflict.kind ↔
        custDblRows db.staffList db.appointments cid s e excl ≠ []) ∧
      ("SERVICE_CAPACITY_EXCEEDED" ∈
          (checkAppointmentConflict db now sid stid cid s e excl).conflicts.map
            Conflict.kind ↔
        svc.max_bookings_per_slot ≤
          (capacityRows db.appointments sid (s / 1440) s e excl).length) ∧
      ("INVALID_TIME_RANGE" ∈
          (checkAppointmentConflict db now sid stid cid s e excl).conflicts.map
            Conflict.kind ↔
        e ≤ s) ∧
      ("PAST_DATE" ∈
          (checkAppointmentConflict db now sid stid cid s e excl).conflicts.map
            Conflict.kind ↔
        s < now))) := by
  refine ⟨fun h => check_eq_of_service_nil h,
    fun svc tl h1 h2 => check_eq_of_staff_nil h1 h2,
    fun svc tl st tl2 h1 h2 h3 => check_eq_of_customer_nil h1 h2 h3, ?_⟩
  intro svc tl st tl2 h1 h2 h3
  simp only [check_eq_full h1 h2 h3]
  refine ⟨?_, ?_, ?_, ?_, ?_, ?_⟩ <;>
    · rw [fullConflicts_kind_iff]
      simp

/-- Snapshot whose only booking is an overlapping, scheduled, UNASSIGNED
(NULL `staff_id`) booking of customer 0. -/
def exC4wdb : DB := { baseDB with
  appointments := [⟨7, 0, none, 0, 850, 910, .scheduled⟩] }

/-- C4 witness: the part-one short circuit applied at the base snapshot with
an unknown service id, and — via the join-faithful customer double-booking
conjunct — an overlapping NULL-staff booking of the same customer that does
NOT trigger `CUSTOMER_DOUBLE_BOOKING`, because the query's inner staff join
drops it. -/
theorem C4_short_circuit_and_accumulation_witness :
    (checkAppointmentConflict baseDB 0 99 0 0 840 900 none =
      ⟨true, [⟨"SERVICE_NOT_FOUND", "ERROR", none⟩], none⟩) ∧
    "CUSTOMER_DOUBLE_BOOKING" ∉
      (checkAppointmentConflict exC4wdb 0 0 0 0 840 900 none).conflicts.map
        Conflict.kind :=
  ⟨(C4_short_circuit_and_accumulation baseDB 0 99 0 0 840 900 none).1
      (by decide),
    fun hmem => absurd
      (((C4_short_circuit_and_accumulation exC4wdb 0 0 0 0 840 900
              none).2.2.2 ⟨0, true, 60, 0, 1⟩ [] ⟨0, true⟩ [] (by decide)
          (by decide) (by decide)).2.2.1.mp hmem)
      (by decide)⟩

/-- C6 (amended): on the full path, the checker reports a time-off finding
based ONLY on the first time-off row returned for the staff/date: the
partial-overlap ERROR appears iff that first row is non-all-day, carries both
times, and overlaps the proposal's times of day; the all-day ERROR appears
iff that first row is flagged all-day.  Overlapping rows after the first are
ignored. -/
theorem C6_time_off_first_row_only (db : DB) (now sid stid cid s e : Nat)
    (excl : Option Nat) (svc : Service) (tl : List Service) (st : Staff)
    (tl2 : List Staff)
    (h1 : db.services.filter (fun x => x.id == sid) = svc :: tl)
    (h2 : db.staffList.filter (fun x => x.id == stid) = st :: tl2)
    (h3 : (db.customers.filter (fun c => c == cid)).isEmpty = false) :
    ("STAFF_TIME_OFF_OVERLAP" ∈
        (checkAppointmentConflict db now sid stid cid s e excl).conflicts.map
          Conflict.kind ↔
      ∃ t rest, db.staff_time_off.filter
          (fun t => t.staff_id == stid && t.date == s / 1440) = t :: rest ∧
        t.is_all_day = false ∧ ∃ ts te, t.start_time = some ts ∧
          t.end_time = some te ∧
          sqlApptOverlap (s % 1440) (e % 1440) ts te = true) ∧
    ("STAFF_TIME_OFF_ALL_DAY" ∈
        (checkAppointmentConflict db now sid stid cid s e excl).conflicts.map
          Conflict.kind ↔
      ∃ t rest, db.staff_time_off.filter
          (fun t => t.staff_id == stid && t.date == s / 1440) = t :: rest ∧
        t.is_all_day = true) := by
  simp only [check_eq_full h1 h2 h3]
  constructor <;>
    · rw [fullConflicts_kind_iff]
      simp

/-- C6 witness: with a single overlapping partial time-off row, the overlap
ERROR is reported. -/
theorem C6_time_off_first_row_only_witness :
    "STAFF_TIME_OFF_OVERLAP" ∈
      (checkAppointmentConflict exC6wdb 0 0 0 0 840 900 none).conflicts.map
        Conflict.kind :=
  (C6_time_off_first_row_only exC6wdb 0 0 0 0 840 900 none ⟨0, true, 60, 0, 1⟩
      [] ⟨0, true⟩ [] (by decide) (by decide) (by decide)).1.mpr
    ⟨⟨0, 0, false, some 840, some 900⟩, [], by decide, rfl, 840, 900, rfl, rfl,
      by decide⟩

/-- The fixed order in which `checkAppointmentConflict` can emit finding
kinds, following the source's check sequence 1–11 (capacity AFTER the two
double-booking checks). -/
def conflictKindOrder : List String :=
  ["SERVICE_NOT_FOUND", "SERVICE_INACTIVE", "STAFF_NOT_FOUND", "STAFF_INACTIVE",
    "CUSTOMER_NOT_FOUND", "STAFF_SERVICE_MISMATCH", "NO_BUSINESS_HOURS",
    "BUSINESS_CLOSED", "OUTSIDE_BUSINESS_HOURS", "STAFF_NO_WORKING_HOURS",
    "STAFF_NOT_AVAILABLE", "OUTSIDE_STAFF_HOURS", "STAFF_TIME_OFF_ALL_DAY",
    "STAFF_TIME_OFF_OVERLAP", "STAFF_DOUBLE_BOOKING", "CUSTOMER_DOUBLE_BOOKING",
    "SERVICE_CAPACITY_EXCEEDED", "INVALID_TIME_RANGE", "PAST_DATE"]

theorem serviceActiveC_kinds_sub (svc : Service) :
    List.Sublist ((serviceActiveC svc).map Conflict.kind)
      ["SERVICE_INACTIVE"] := by
  rcases h : svc.is_active <;> simp [serviceActiveC, h]

theorem staffActiveC_kinds_sub (st : Staff) :
    List.Sublist ((staffActiveC st).map Conflict.kind) ["STAFF_INACTIVE"] := by
  rcases h : st.is_active <;> simp [staffActiveC, h]

theorem staffServiceC_kinds_sub (links : List (Nat × Nat)) (a b : Nat) :
    List.Sublist ((staffServiceC links a b).map Conflict.kind)
      ["STAFF_SERVICE_MISMATCH"] := by
  rcases h : (links.filter (fun p => p.1 == a && p.2 == b)).isEmpty <;>
    simp [staffServiceC, h]

theorem businessHoursC_kinds_sub (rows : List BizHours) (dow sMin eMin : Nat) :
    List.Sublist ((businessHoursC rows dow sMin eMin).map Conflict.kind)
      ["NO_BUSINESS_HOURS", "BUSINESS_CLOSED", "OUTSIDE_BUSINESS_HOURS"] := by
  rcases hf : rows.filter (fun w => w.day_of_week == dow) with _ | ⟨w, tlw⟩
  · simp [businessHoursC, hf]
  · rcases hc : w.is_closed
    · by_cases ho : sMin < w.open_time ∨ eMin > w.close_time <;>
        simp [businessHoursC, hf, hc, ho]
    · simp [businessHoursC, hf, hc]

theorem staffHoursC_kinds_sub (rows : List StaffHours)
    (stid dow sMin eMin : Nat) :
    List.Sublist ((staffHoursC rows stid dow sMin eMin).map Conflict.kind)
      ["STAFF_NO_WORKING_HOURS", "STAFF_NOT_AVAILABLE",
        "OUTSIDE_STAFF_HOURS"] := by
  rcases hf : rows.filter (fun r => r.staff_id == stid && r.day_of_week == dow)
    with _ | ⟨r, tlr⟩
  · simp [staffHoursC, hf]
  · rcases hc : r.is_available
    · simp [staffHoursC, hf, hc]
    · by_cases ho : sMin < r.open_time ∨ eMin > r.close_time <;>
        simp [staffHoursC, hf, hc, ho]

theorem timeOffC_kinds_sub (rows : List TimeOff) (sMin eMin : Nat) :
    List.Sublist ((timeOffC rows sMin eMin).map Conflict.kind)
      ["STAFF_TIME_OFF_ALL_DAY", "STAFF_TIME_OFF_OVERLAP"] := by
  cases rows with
  | nil => exact List.nil_sublist _
  | cons t rest =>
    rcases hall : t.is_all_day
    · rcases hts : t.start_time with _ | ts
      · simp [timeOffC, hall, hts]
      · rcases hte : t.end_time with _ | te
        · simp [timeOffC, hall, hts, hte]
        · rcases hov : sqlApptOverlap sMin eMin ts te <;>
            simp [timeOffC, hall, hts, hte, hov]
    · simp [timeOffC, hall]

theorem staffDblC_kinds_sub (appts : List Appt) (stid s e : Nat)
    (excl : Option Nat) :
    List.Sublist ((staffDblC appts stid s e excl).map Conflict.kind)
      ["STAFF_DOUBLE_BOOKING"] := by
  rcases h : staffDblRows appts stid s e excl with _ | ⟨a, rest⟩ <;>
    simp [staffDblC, h]

theorem custDblC_kinds_sub (staffRows : List Staff) (appts : List Appt)
    (cid s e : Nat) (excl : Option Nat) :
    List.Sublist ((custDblC staffRows appts cid s e excl).map Conflict.kind)
      ["CUSTOMER_DOUBLE_BOOKING"] := by
  rcases h : custDblRows staffRows appts cid s e excl with _ | ⟨a, rest⟩ <;>
    simp [custDblC, h]

theorem capacityC_kinds_sub (appts : List Appt) (sid date s e : Nat)
    (excl : Option Nat) (maxB : Nat) :
    List.Sublist ((capacityC appts sid date s e excl maxB).map Conflict.kind)
      ["SERVICE_CAPACITY_EXCEEDED"] := by
  by_cases h : (capacityRows appts sid date s e excl).length ≥ maxB <;>
    simp [capacityC, h]

theorem invalidRangeC_kinds_sub (s e : Nat) :
    List.Sublist ((invalidRangeC s e).map Conflict.kind)
      ["INVALID_TIME_RANGE"] := by
  by_cases h : s ≥ e <;> simp [invalidRangeC, h]

theorem pastDateC_kinds_sub (now s : Nat) :
    List.Sublist ((pastDateC now s).map Conflict.kind) ["PAST_DATE"] := by
  by_cases h : s < now <;> simp [pastDateC, h]

/-- The kinds of a full-path conflict list respect the fixed order. -/
theorem fullConflicts_kinds_sub (db : DB) (now sid stid cid s e : Nat)
    (excl : Option Nat) (svc : Service) (st : Staff) :
    List.Sublist
      ((fullConflicts db now sid stid cid s e excl svc st).map Conflict.kind)
      conflictKindOrder := by
  unfold fullConflicts
  simp only [List.map_append, List.append_assoc]
  have h8 := (staffDblC_kinds_sub db.appointments stid s e excl).append
    ((custDblC_kinds_sub db.staffList db.appointments cid s e excl).append
      ((capacityC_kinds_sub db.appointments sid (s / 1440) s e excl
          svc.max_bookings_per_slot).append
        ((invalidRangeC_kinds_sub s e).append (pastDateC_kinds_sub now s))))
  have h7 := (timeOffC_kinds_sub (db.staff_time_off.filter
    (fun t => t.staff_id == stid && t.date == s / 1440)) (s % 1440)
    (e % 1440)).append h8
  have h6 := (staffHoursC_kinds_sub db.staff_working_hours stid
    (dayOfWeek (s / 1440)) (s % 1440) (e % 1440)).append h7
  have h5 := (businessHoursC_kinds_sub db.working_hours
    (dayOfWeek (s / 1440)) (s % 1440) (e % 1440)).append h6
  have h4 := (staffServiceC_kinds_sub db.staff_services stid sid).append h5
  have h4' := h4.trans (List.sublist_append_right ["CUSTOMER_NOT_FOUND"] _)
  have h2 := (staffActiveC_kinds_sub st).append h4'
  have h2' := h2.trans (List.sublist_append_right ["STAFF_NOT_FOUND"] _)
  have h1 := (serviceActiveC_kinds_sub svc).append h2'
  have h1' := h1.trans (List.sublist_append_right ["SERVICE_NOT_FOUND"] _)
  exact h1'

/-- C7 (amended): being a pure function of the snapshot, the checker is
deterministic; its findings always appear as a subsequence of the fixed kind
order of the source's checks 1–11 — in particular the capacity finding comes
AFTER the double-booking findings — and no finding kind is ever reported
more than once (each double-booking check reports at most one finding, built
from the first matching row in snapshot order). -/
theorem C7_kind_order_and_uniqueness (db : DB) (now sid stid cid s e : Nat)
    (excl : Option Nat) :
    List.Sublist
      ((checkAppointmentConflict db now sid stid cid s e excl).conflicts.map
        Conflict.kind) conflictKindOrder ∧
    ∀ k, ((checkAppointmentConflict db now sid stid cid s e excl).conflicts.map
      Conflict.kind).count k ≤ 1 := by
  have hsub : List.Sublist
      ((checkAppointmentConflict db now sid stid cid s e excl).conflicts.map
        Conflict.kind) conflictKindOrder := by
    rcases hs : db.services.filter (fun x => x.id == sid) with _ | ⟨svc, tl⟩
    · simp only [check_eq_of_service_nil hs]; decide
    · rcases hst : db.staffList.filter (fun x => x.id == stid)
        with _ | ⟨st, tl2⟩
      · simp only [check_eq_of_staff_nil hs hst]
        rcases ha : svc.is_active <;>
          simp [serviceActiveC, ha] <;> decide
      · rcases hc : (db.customers.filter (fun c => c == cid)).isEmpty
        · simp only [check_eq_full hs hst hc]
          exact fullConflicts_kinds_sub db now sid stid cid s e excl svc st
        · simp only [check_eq_of_customer_nil hs hst hc]
          rcases ha : svc.is_active <;> rcases hb : st.is_active <;>
            simp [serviceActiveC, staffActiveC, ha, hb] <;> decide
  exact ⟨hsub, fun k => le_trans (hsub.count_le k)
    (List.nodup_iff_count_le_one.mp (by decide) k)⟩

/-- C1 (amended): full listing/checking agreement fails (see the
counterexample: the listing never consults staff working hours, time off, or
the checker's status filter), but the business-hours third of the claimed
agreement does hold: when the weekday has exactly one business-hours row,
open and not closed, every slot the listing returns — proposed verbatim on
the same date — passes the checker's business-hours check 5, i.e. the result
contains no `NO_BUSINESS_HOURS`, `BUSINESS_CLOSED` or
`OUTSIDE_BUSINESS_HOURS` finding, whatever staff and customer are chosen. -/
theorem C1_listed_slots_pass_business_hours (db : DB) (sid date : Nat)
    (w : BizHours) (slots : List TimeSlot) (sl : TimeSlot)
    (now stid cid : Nat) (excl : Option Nat)
    (hw : db.working_hours.filter
      (fun r => r.day_of_week == dayOfWeek date) = [w])
    (hopen : w.is_open = true) (hclosed : w.is_closed = false)
    (hlt : w.close_time < 1440)
    (hslots : getAvailableTimeSlots db sid date = some slots)
    (hm : sl ∈ slots) :
    "NO_BUSINESS_HOURS" ∉
      (checkAppointmentConflict db now sid stid cid
        (date * 1440 + sl.start_time) (date * 1440 + sl.end_time)
        excl).conflicts.map Conflict.kind ∧
    "BUSINESS_CLOSED" ∉
      (checkAppointmentConflict db now sid stid cid
        (date * 1440 + sl.start_time) (date * 1440 + sl.end_time)
        excl).conflicts.map Conflict.kind ∧
    "OUTSIDE_BUSINESS_HOURS" ∉
      (checkAppointmentConflict db now sid stid cid
        (date * 1440 + sl.start_time) (date * 1440 + sl.end_time)
        excl).conflicts.map Conflict.kind := by
  obtain ⟨svc, tl, w2, tlw2, hsv, hw2, hge, hend, hle, -⟩ :=
    getAvailableTimeSlots_mem hslots hm
  have hswap : db.working_hours.filter
      (fun r => r.day_of_week == dayOfWeek date && r.is_open) =
      db.working_hours.filter
        (fun r => r.is_open && (r.day_of_week == dayOfWeek date)) :=
    List.filter_congr (fun a _ => Bool.and_comm _ _)
  have hff : (db.working_hours.filter
      (fun r => r.day_of_week == dayOfWeek date)).filter (fun r => r.is_open) =
      db.working_hours.filter
        (fun r => r.is_open && (r.day_of_week == dayOfWeek date)) :=
    List.filter_filter _ _
  have hw2' : db.working_hours.filter
      (fun r => r.day_of_week == dayOfWeek date && r.is_open) = [w] := by
    rw [hswap, ← hff, hw]
    simp [hopen]
  have hww : ([w] : List BizHours) = w2 :: tlw2 := hw2'.symm.trans hw2
  obtain ⟨rfl, -⟩ : w = w2 ∧ [] = tlw2 := by
    injection hww with h1 h2
    exact ⟨h1, h2⟩
  have hslt : sl.start_time < 1440 := by omega
  have helt : sl.end_time < 1440 := by omega
  have hdiv : (date * 1440 + sl.start_time) / 1440 = date := by omega
  have hmods : (date * 1440 + sl.start_time) % 1440 = sl.start_time := by omega
  have hmode : (date * 1440 + sl.end_time) % 1440 = sl.end_time := by omega
  rcases hst : db.staffList.filter (fun x => x.id == stid) with _ | ⟨st2, tl2⟩
  · simp only [check_eq_of_staff_nil hsv hst]
    rcases ha : svc.is_active <;> simp [serviceActiveC, ha]
  · rcases hcus : (db.customers.filter (fun c => c == cid)).isEmpty
    · simp only [check_eq_full hsv hst hcus]
      refine ⟨?_, ?_, ?_⟩
      · intro hmem
        rw [fullConflicts_kind_iff, hdiv, hmods, hmode] at hmem
        simp [hw] at hmem
      · intro hmem
        rw [fullConflicts_kind_iff, hdiv, hmods, hmode] at hmem
        simp [hw, hclosed] at hmem
      · intro hmem
        rw [fullConflicts_kind_iff, hdiv, hmods, hmode] at hmem
        simp [hw, hclosed] at hmem
        omega
    · simp only [check_eq_of_customer_nil hsv hst hcus]
      rcases ha : svc.is_active <;> rcases hb : st2.is_active <;>
        simp [serviceActiveC, staffActiveC, ha, hb]

/-- C1 witness: the first slot listed on the base 09:00–11:00 snapshot,
checked verbatim, carries none of the three business-hours findings. -/
theorem C1_listed_slots_pass_business_hours_witness :
    "NO_BUSINESS_HOURS" ∉
      (checkAppointmentConflict exC1wdb 0 0 0 0 540 600 none).conflicts.map
        Conflict.kind ∧
    "BUSINESS_CLOSED" ∉
      (checkAppointmentConflict exC1wdb 0 0 0 0 540 600 none).conflicts.map
        Conflict.kind ∧
    "OUTSIDE_BUSINESS_HOURS" ∉
      (checkAppointmentConflict exC1wdb 0 0 0 0 540 600 none).conflicts.map
        Conflict.kind :=
  C1_listed_slots_pass_business_hours exC1wdb 0 0 ⟨0, 540, 660, true, false⟩
    [⟨540, 600, [0], 1⟩, ⟨570, 630, [0], 1⟩, ⟨600, 660, [0], 1⟩]
    ⟨540, 600, [0], 1⟩ 0 0 0 none (by decide) rfl rfl (by decide) (by decide)
    (by decide)

end Appointment
